import Mathlib

/-!
# SmartFolio — verification of the credential-encryption, session and
  aggregation subsystems

Shallow embedding of the relevant parts of the SmartFolio browser
extension (files `src/utils/encryption.js`, `src/utils/password_manager.js`,
`src/utils/chain_api.js`, `src/dashboard/utils/cex_manager.js`,
`src/dashboard/index.js` and the settings manager), together with theorems
settling the specification claims about them.

Modelling conventions:
* JS strings that may hold either user text or a CryptoJS AES ciphertext are
  modelled by the inductive type `JStr`: a ciphertext is a constructor
  remembering the plaintext and the password used.  This idealizes the
  CryptoJS primitive as a correct symmetric cipher (decryption with the
  right password recovers the plaintext, decryption with a wrong password
  or of a non-ciphertext fails, ciphertexts are non-empty strings).
* A JS value that may be `undefined`/`null` is an `Option`.
* JS truthiness of a string is "not null and not empty".
* Numbers that the code manipulates (balances, prices) are `ℚ`;
  timestamps are `ℕ` (`Date.now()` milliseconds).
-/

namespace SmartFolio

/-- Model of a JS string value as it flows through the credential store:
either a plain string or a CryptoJS AES ciphertext
(`CryptoJS.AES.encrypt(data, password).toString()`), which remembers the
encrypted data and the password.  Real ciphertexts are non-empty base64
strings, hence `cipher` is never JS-falsy. -/
inductive JStr where
  | plain : String → JStr
  | cipher : JStr → String → JStr
deriving DecidableEq, Repr

/-- JS falsiness of a string: only the empty string is falsy; a ciphertext
(non-empty base64 text) never is. -/
def JStr.isFalsy : JStr → Bool
  | .plain s => s = ""
  | .cipher _ _ => false

/-- JS truthiness of a possibly-`undefined` string field. -/
def truthy (s : Option JStr) : Bool :=
  match s with
  | none => false
  | some v => !v.isFalsy

/-- `encrypt(data, password)` from `src/utils/encryption.js` (lines 9–20):
returns `null` when `data` or `password` is falsy, otherwise the CryptoJS
AES ciphertext; the `try/catch` wrapper never fires in the idealized
cipher model (AES encryption of a string does not throw). -/
def encrypt (data : Option JStr) (password : String) : Option JStr :=
  match data with
  | none => none
  | some d =>
    if d.isFalsy || password = "" then none
    else some (JStr.cipher d password)

/-- `decrypt(encryptedData, password)` from `src/utils/encryption.js`
(lines 28–41): returns `null` when either input is falsy; otherwise AES
decryption.  A wrong password or a non-ciphertext input yields garbage or
a thrown `Malformed UTF-8` error, both of which the source converts to
`null` (the `catch` branch, and `decrypted || null` for an empty result). -/
def decrypt (encryptedData : Option JStr) (password : String) : Option JStr :=
  match encryptedData with
  | none => none
  | some ed =>
    if ed.isFalsy || password = "" then none
    else
      match ed with
      | .plain _ => none
      | .cipher d p => if p = password then (if d.isFalsy then none else some d) else none

/-- `String.prototype.trim()`, modelled structurally on the character
list (kernel-reducible, unlike `String.trim`). -/
def jsTrim (s : String) : String :=
  String.mk ((s.data.dropWhile Char.isWhitespace).reverse.dropWhile Char.isWhitespace).reverse

/-- `String.prototype.toLowerCase()`, modelled on the character list. -/
def jsToLower (s : String) : String := String.mk (s.data.map Char.toLower)

/-- `String.prototype.toUpperCase()`, modelled on the character list. -/
def jsToUpper (s : String) : String := String.mk (s.data.map Char.toUpper)

/-- `String.prototype.split('\n')`, modelled on the character list. -/
def splitLinesAux : List Char → List Char → List String
  | [], cur => [String.mk cur.reverse]
  | c :: rest, cur =>
    if c = '\n' then String.mk cur.reverse :: splitLinesAux rest []
    else splitLinesAux rest (c :: cur)

/-- `rawInput.split('\n')`. -/
def jsSplitLines (s : String) : List String := splitLinesAux s.data []

/-- Truthiness of a possibly-absent boolean flag such as `isEncrypted`
(set to `true` by the encrypt wrappers, removed by `delete` in the decrypt
wrappers). -/
def flagTruthy (b : Option Bool) : Bool := b = some true

/-- Truthiness of the master password returned by `getMasterPassword`
(`null` when no valid session). -/
def mpwTruthy (mpw : Option String) : Bool :=
  match mpw with
  | none => false
  | some p => p ≠ ""

/-- The `Settings` configuration bag (the fields the verified code reads
or writes; a missing key is `none`). -/
structure Settings where
  openRouterApiKey : Option JStr
  siliconFlowApiKey : Option JStr
  etherscanApiKey : Option JStr
  customSolanaRpc : Option JStr
  isEncrypted : Option Bool
  encryptionVersion : Option String
  _timestamp : Option Nat
  syncWallets : Option Bool
  syncCexApi : Option Bool
deriving DecidableEq, Repr

/-- A CEX account record. -/
structure CexAccount where
  id : String
  cexName : String
  apiKey : Option JStr
  apiSecret : Option JStr
  passphrase : Option JStr
  remark : String
  isEncrypted : Option Bool
deriving DecidableEq, Repr

/-- `encryptSettings(settings, password)` (`encryption.js` lines 50–77):
encrypts the two AI API keys when present (etherscanApiKey and
customSolanaRpc are deliberately left plaintext) and marks the object
`isEncrypted`/`encryptionVersion`.  The JS `!settings` null-guard is
outside the model's domain (callers pass objects); `!password` returns
the input unchanged. -/
def encryptSettings (settings : Settings) (password : String) : Settings :=
  if password = "" then settings
  else
    { settings with
      openRouterApiKey :=
        if truthy settings.openRouterApiKey then encrypt settings.openRouterApiKey password
        else settings.openRouterApiKey
      siliconFlowApiKey :=
        if truthy settings.siliconFlowApiKey then encrypt settings.siliconFlowApiKey password
        else settings.siliconFlowApiKey
      isEncrypted := some true
      encryptionVersion := some "1.0" }

/-- The per-field pattern shared by the decrypt wrappers: when the field is
truthy, try to decrypt it and keep the old (cipher) value if decryption
returned `null` (`if (decryptedKey) decrypted.x = decryptedKey`). -/
def decField (f : Option JStr) (password : String) : Option JStr :=
  if truthy f then
    match decrypt f password with
    | some d => some d
    | none => f
  else f

/-- `decryptSettings(settings, password)` (`encryption.js` lines 85–118):
no-op on falsy password or on a non-`isEncrypted` object; otherwise
decrypts each AI key that decrypts successfully and unconditionally
deletes the `isEncrypted` and `encryptionVersion` markers. -/
def decryptSettings (settings : Settings) (password : String) : Settings :=
  if password = "" then settings
  else if !flagTruthy settings.isEncrypted then settings
  else
    { settings with
      openRouterApiKey := decField settings.openRouterApiKey password
      siliconFlowApiKey := decField settings.siliconFlowApiKey password
      isEncrypted := none
      encryptionVersion := none }

/-- `encryptCexAccount(cexAccount, password)` (`encryption.js` lines
127–150): encrypts `apiSecret` and `passphrase` when present (`apiKey` is
deliberately plaintext) and sets `isEncrypted = true`. -/
def encryptCexAccount (cexAccount : CexAccount) (password : String) : CexAccount :=
  if password = "" then cexAccount
  else
    { cexAccount with
      apiSecret :=
        if truthy cexAccount.apiSecret then encrypt cexAccount.apiSecret password
        else cexAccount.apiSecret
      passphrase :=
        if truthy cexAccount.passphrase then encrypt cexAccount.passphrase password
        else cexAccount.passphrase
      isEncrypted := some true }

/-- `decryptCexAccount(cexAccount, password)` (`encryption.js` lines
158–186): no-op on falsy password or when `isEncrypted` is not set;
otherwise decrypts the fields that decrypt successfully and
unconditionally deletes `isEncrypted`. -/
def decryptCexAccount (cexAccount : CexAccount) (password : String) : CexAccount :=
  if password = "" || !flagTruthy cexAccount.isEncrypted then cexAccount
  else
    { cexAccount with
      apiSecret := decField cexAccount.apiSecret password
      passphrase := decField cexAccount.passphrase password
      isEncrypted := none }

/-- `encryptCexAccounts(cexAccounts, password)` (`encryption.js` lines
194–200): maps `encryptCexAccount` over the array; falsy password returns
the array unchanged (a JS array, even empty, is truthy and always passes
the `Array.isArray` guard). -/
def encryptCexAccounts (cexAccounts : List CexAccount) (password : String) : List CexAccount :=
  if password = "" then cexAccounts
  else cexAccounts.map (fun account => encryptCexAccount account password)

/-- `decryptCexAccounts(cexAccounts, password)` (`encryption.js` lines
208–214). -/
def decryptCexAccounts (cexAccounts : List CexAccount) (password : String) : List CexAccount :=
  if password = "" then cexAccounts
  else cexAccounts.map (fun account => decryptCexAccount account password)

/-- `accounts[0]?.isEncrypted` truthiness test used by `cex_manager.js`
and the update loop to decide whether a stored array is encrypted. -/
def headEncrypted (accounts : List CexAccount) : Bool :=
  match accounts with
  | [] => false
  | a :: _ => flagTruthy a.isEncrypted

/-- `saveCexAccounts(accounts)` (`cex_manager.js` lines 215–233), as the
value written to `chrome.storage.local`: encrypt when a master password is
available and the array is non-empty, otherwise store as-is.  `mpw` is the
result of `getMasterPassword()`. -/
def saveCexAccounts (accounts : List CexAccount) (mpw : Option String) : List CexAccount :=
  if mpwTruthy mpw && accounts.length > 0 then
    encryptCexAccounts accounts (mpw.getD "")
  else accounts

/-- The remark defaulting of `addCexAccount`:
`document.getElementById('cex-remark').value.trim() ||
cexName.toUpperCase() + ' Wallet'`. -/
def defaultRemark (remarkRaw cexName : String) : String :=
  if jsTrim remarkRaw = "" then jsToUpper cexName ++ " Wallet" else jsTrim remarkRaw

/-- `addCexAccount()` (`cex_manager.js` lines 20–76), reduced to its
storage effect: the DOM form fields are the first five arguments, `stored`
is the array read from `chrome.storage.local`, `mpw` the session password
and `freshId` the `Date.now().toString()` id.  Returns the array persisted
by the call (the early-return branches — missing key/secret, missing
passphrase for okx/bitget, encrypted store without a session — leave the
storage unchanged). -/
def addCexAccount (cexName apiKeyRaw apiSecretRaw passphraseRaw remarkRaw : String)
    (stored : List CexAccount) (mpw : Option String) (freshId : String) : List CexAccount :=
  let apiKey := jsTrim apiKeyRaw
  let apiSecret := jsTrim apiSecretRaw
  let passphrase := jsTrim passphraseRaw
  let remark := defaultRemark remarkRaw cexName
  if apiKey = "" || apiSecret = "" then stored
  else if (cexName = "okx" || cexName = "bitget") && passphrase = "" then stored
  else if headEncrypted stored && !mpwTruthy mpw then stored
  else
    let accounts :=
      if stored.length > 0 && headEncrypted stored then decryptCexAccounts stored (mpw.getD "")
      else stored
    let newAccount : CexAccount :=
      { id := freshId, cexName := cexName, apiKey := some (.plain apiKey),
        apiSecret := some (.plain apiSecret), passphrase := some (.plain passphrase),
        remark := remark, isEncrypted := none }
    saveCexAccounts (accounts ++ [newAccount]) mpw

/-! ## Session manager (`src/utils/password_manager.js`) -/

/-- `SESSION_DURATION` (30 minutes in milliseconds). -/
def SESSION_DURATION : Nat := 30 * 60 * 1000

/-- `hashPassword` (`password_manager.js` lines 10–12): SHA-256 digest,
idealized as an injective (collision-free) tagging of the password. -/
def hashPassword (password : String) : String := "sha256$" ++ password

/-- The content of `chrome.storage.session` (memory-only key-value store);
a missing key is `none`. -/
structure SessionStore where
  sessionToken : Option String
  sessionExpiry : Option Nat
  masterPassword : Option String
deriving DecidableEq, Repr

/-- JS falsiness of a possibly-missing string (missing or empty). -/
def jsStrFalsy (s : Option String) : Bool :=
  match s with
  | none => true
  | some v => v = ""

/-- JS falsiness of a possibly-missing number (missing or zero). -/
def jsNatFalsy (n : Option Nat) : Bool :=
  match n with
  | none => true
  | some v => v = 0

/-- `clearSession()` (`password_manager.js` lines 125–127):
`chrome.storage.session.clear()`. -/
def clearSession (_store : SessionStore) : SessionStore :=
  { sessionToken := none, sessionExpiry := none, masterPassword := none }

/-- `createSession(password)` (`password_manager.js` lines 70–94):
verifies the submitted password against the stored hash (throwing on a
missing hash or a mismatch), then writes token, expiry `now + 30min` and
the password itself into session storage.  `now` is `Date.now()` and
`token` the freshly generated random token. -/
def createSession (password : String) (passwordHash : Option String) (now : Nat)
    (token : String) : Except String SessionStore :=
  if jsStrFalsy passwordHash then
    Except.error "Password not set. Please set up password first."
  else if passwordHash ≠ some (hashPassword password) then
    Except.error "Invalid password"
  else
    Except.ok { sessionToken := some token, sessionExpiry := some (now + SESSION_DURATION),
                masterPassword := some password }

/-- `validateSession()` (`password_manager.js` lines 100–119): false when
token or expiry is missing; false — actively clearing the session store —
when the clock has passed the stored expiry; true otherwise.  Returns the
validity together with the (possibly cleared) session store. -/
def validateSession (store : SessionStore) (now : Nat) : Bool × SessionStore :=
  if jsStrFalsy store.sessionToken || jsNatFalsy store.sessionExpiry then (false, store)
  else if now > store.sessionExpiry.getD 0 then (false, clearSession store)
  else (true, store)

/-- `getMasterPassword()` (`password_manager.js` lines 133–141): the
stored password when `validateSession()` holds, `null` otherwise. -/
def getMasterPassword (store : SessionStore) (now : Nat) : Option String × SessionStore :=
  match validateSession store now with
  | (false, store2) => (none, store2)
  | (true, store2) =>
    match store2.masterPassword with
    | none => (none, store2)
    | some p => (if p = "" then none else some p, store2)

/-! ## Solana multi-RPC fallback (`src/utils/chain_api.js` lines 6–67) -/

/-- `SOLANA_RPCS` (`chain_api.js` line 6): the built-in endpoint list is
empty ("Configured by User"). -/
def SOLANA_RPCS : List String := []

/-- The `rpcsToTry` construction (`chain_api.js` lines 10–20): unshift the
user-configured custom RPC (when the settings field is truthy) onto the
built-in list.  `customRpc` is `data.settings?.customSolanaRpc`. -/
def solanaRpcsToTry (customRpc : Option String) : List String :=
  match customRpc with
  | some c => if c ≠ "" then c :: SOLANA_RPCS else SOLANA_RPCS
  | none => SOLANA_RPCS

/-- The endpoint loop of `getSolanaBalance` (`chain_api.js` lines 23–66):
try each RPC in order; on the first success convert lamports to SOL
(divide by 10^9) and multiply by the SOL price; on failure remember the
error and continue; when the list is exhausted throw the last error (or
the generic message when no endpoint was ever attempted).  `fetch` maps an
RPC URL to its outcome (lamports or a thrown/`response.data.error`
failure); `price` is the CoinGecko SOL price (`getPrice` returns 0 on its
own failure). -/
def trySolanaRpcs (fetch : String → Except String ℚ) (price : ℚ) :
    List String → Option String → Except String ℚ
  | [], lastError => Except.error (lastError.getD "All Solana RPCs failed")
  | rpcUrl :: rest, _lastError =>
    match fetch rpcUrl with
    | Except.ok lamports => Except.ok (lamports / 1000000000 * price)
    | Except.error e => trySolanaRpcs fetch price rest (some e)

/-- `getSolanaBalance(address)` (`chain_api.js` lines 8–67), parameterized
by the configured custom RPC and the network outcomes. -/
def getSolanaBalance (customRpc : Option String) (fetch : String → Except String ℚ)
    (price : ℚ) : Except String ℚ :=
  trySolanaRpcs fetch price (solanaRpcsToTry customRpc) none

/-! ## OKX balance adapter (`src/utils/chain_api.js` lines 351–481) -/

/-- An OKX REST response body: `code` and `data` (`|| []` applied). -/
structure OkxResp (α : Type) where
  code : String
  data : List α
deriving DecidableEq, Repr

/-- One element of the trading-account response: `totalEq`, `none` when
`parseFloat` fails. -/
structure OkxTradingAccount where
  totalEq : Option ℚ
deriving DecidableEq, Repr

/-- One element of the funding-account response. -/
structure OkxFundingAsset where
  ccy : String
  bal : Option ℚ
deriving DecidableEq, Repr

/-- One element of the savings response. -/
structure OkxSavingsPosition where
  ccy : String
  amt : Option ℚ
deriving DecidableEq, Repr

/-- The value returned by an exchange adapter: total USD balance, the
per-sub-account breakdown and the `status` field. -/
structure CexBalanceResult where
  balance : ℚ
  trading : ℚ
  funding : ℚ
  savings : ℚ
  status : String
deriving DecidableEq, Repr

/-- The stablecoin test used by the OKX adapter (`ccy === 'USDT' || ...`). -/
def isStableCcy (ccy : String) : Bool :=
  ccy = "USDT" || ccy = "USDC" || ccy = "USD"

/-- `getOkxBalance(apiKey, apiSecret, passphrase)` (`chain_api.js` lines
351–481).  Each sub-account request is independently fallible: a thrown
request is caught (`console.warn`) and the category stays 0; a non-`'0'`
response code likewise leaves 0.  The trading loop overwrites
`tradingBalance` with each account's `totalEq` (`parseFloat(..) || 0`);
funding and savings accumulate positive amounts, stablecoins at face
value, others via `getOkxPrice` (which itself never throws — it returns 0
on failure, folded into `price`). -/
def getOkxBalance
    (tradingResult : Except String (OkxResp OkxTradingAccount))
    (fundingResult : Except String (OkxResp OkxFundingAsset))
    (savingsResult : Except String (OkxResp OkxSavingsPosition))
    (price : String → ℚ) : CexBalanceResult :=
  let tradingBalance :=
    match tradingResult with
    | Except.error _ => 0
    | Except.ok resp =>
      if resp.code = "0" then
        resp.data.foldl (fun _ account => account.totalEq.getD 0) 0
      else 0
  let fundingBalance :=
    match fundingResult with
    | Except.error _ => 0
    | Except.ok resp =>
      if resp.code = "0" then
        resp.data.foldl (fun acc asset =>
          let bal := asset.bal.getD 0
          if bal > 0 then
            if isStableCcy asset.ccy then acc + bal
            else acc + bal * price asset.ccy
          else acc) 0
      else 0
  let savingsBalance :=
    match savingsResult with
    | Except.error _ => 0
    | Except.ok resp =>
      if resp.code = "0" then
        resp.data.foldl (fun acc pos =>
          let amt := pos.amt.getD 0
          if amt > 0 then
            if isStableCcy pos.ccy then acc + amt
            else acc + amt * price pos.ccy
          else acc) 0
      else 0
  { balance := tradingBalance + fundingBalance + savingsBalance,
    trading := tradingBalance, funding := fundingBalance, savings := savingsBalance,
    status := "success" }

/-- Specification-side USD value of the trading category: the `totalEq` of
the last listed account (the source loop overwrites), 0 on a non-`'0'`
code. -/
def okxTradingUSD (resp : OkxResp OkxTradingAccount) : ℚ :=
  if resp.code = "0" then
    ((resp.data.getLast?).map (fun a => a.totalEq.getD 0)).getD 0
  else 0

/-- Specification-side USD value of one funding/savings asset. -/
def okxAssetUSD (price : String → ℚ) (ccy : String) (amount : ℚ) : ℚ :=
  if amount > 0 then (if isStableCcy ccy then amount else amount * price ccy) else 0

/-- Specification-side USD value of the funding category: the sum of the
per-asset USD values. -/
def okxFundingUSD (price : String → ℚ) (resp : OkxResp OkxFundingAsset) : ℚ :=
  if resp.code = "0" then
    (resp.data.map (fun a => okxAssetUSD price a.ccy (a.bal.getD 0))).sum
  else 0

/-- Specification-side USD value of the savings category. -/
def okxSavingsUSD (price : String → ℚ) (resp : OkxResp OkxSavingsPosition) : ℚ :=
  if resp.code = "0" then
    (resp.data.map (fun p => okxAssetUSD price p.ccy (p.amt.getD 0))).sum
  else 0

/-! ## Update orchestrator busy guard (`src/dashboard/index.js`)

The background script holds a module-level flag `isUpdating`
(line 1531).  The `START_UPDATE` message handler (lines 1539–1548)
answers `busy` and does nothing when the flag is set, otherwise calls
`startUpdateLoop()` (whose first statement sets the flag) and answers
`ok`.  The `finally` block of `startUpdateLoop` (lines 1770–1775) resets
the flag whether the cycle completed normally or threw.  The embedding
instruments the state with a ghost counter `running` of in-flight cycles
— the quantity the mutual-exclusion claim is about. -/

/-- The two externally visible events of the orchestrator guard. -/
inductive UpdEvent where
  | startUpdate : UpdEvent
  | cycleEnd : UpdEvent
deriving DecidableEq, Repr

/-- The handler's reply to `START_UPDATE`. -/
inductive StartResponse where
  | busy : StartResponse
  | ok : StartResponse
deriving DecidableEq, Repr

/-- Background-script state: the `isUpdating` flag plus the ghost count of
update cycles currently in flight. -/
structure OrchState where
  isUpdating : Bool
  running : Nat
deriving DecidableEq, Repr

/-- Initial state (`let isUpdating = false`, no cycle running). -/
def initOrchState : OrchState := { isUpdating := false, running := 0 }

/-- The `START_UPDATE` handler: busy-guarded start of an update cycle.
Starting a cycle increments the ghost counter because `startUpdateLoop`
begins executing (its first statement sets `isUpdating = true` before the
first `await`). -/
def handleStartUpdate (s : OrchState) : OrchState × StartResponse :=
  if s.isUpdating then (s, StartResponse.busy)
  else ({ isUpdating := true, running := s.running + 1 }, StartResponse.ok)

/-- Termination of an in-flight cycle — the `finally` block, reached both
on normal completion and on an exception: `isUpdating = false`. -/
def cycleTerminate (s : OrchState) : OrchState :=
  { isUpdating := false, running := s.running - 1 }

/-- One event step of the guard. -/
def orchStep (s : OrchState) : UpdEvent → OrchState
  | UpdEvent.startUpdate => (handleStartUpdate s).1
  | UpdEvent.cycleEnd => cycleTerminate s

/-- Run a sequence of events. -/
def orchRun (s : OrchState) : List UpdEvent → OrchState
  | [] => s
  | e :: es => orchRun (orchStep s e) es

/-- Environment validity of a trace: a cycle can only terminate while one
is in flight (a `finally` block runs once per started cycle). -/
def validTrace (s : OrchState) : List UpdEvent → Bool
  | [] => true
  | e :: es =>
    (!(decide (e = UpdEvent.cycleEnd)) || decide (s.running > 0)) &&
      validTrace (orchStep s e) es

/-! ## Wallet records and the settings-manager (`settings_manager.js`) -/

/-- A wallet ledger entry. -/
structure Wallet where
  address : String
  chain_type : String
  remark : String
  wallet_type : String
  balance : ℚ
  last_updated : Option Nat
  status : String
deriving DecidableEq, Repr

/-- JS object spread `{...local, ...cloud}` on two possibly-partial
values: a key present in `cloud` wins. -/
def oMerge {α : Type} (cloud localV : Option α) : Option α :=
  match cloud with
  | some v => some v
  | none => localV

/-- `{...settings, ...syncSettings}` on the `Settings` bag (cloud keys
win, local-only keys survive). -/
def mergeSettings (localS cloud : Settings) : Settings :=
  { openRouterApiKey := oMerge cloud.openRouterApiKey localS.openRouterApiKey,
    siliconFlowApiKey := oMerge cloud.siliconFlowApiKey localS.siliconFlowApiKey,
    etherscanApiKey := oMerge cloud.etherscanApiKey localS.etherscanApiKey,
    customSolanaRpc := oMerge cloud.customSolanaRpc localS.customSolanaRpc,
    isEncrypted := oMerge cloud.isEncrypted localS.isEncrypted,
    encryptionVersion := oMerge cloud.encryptionVersion localS.encryptionVersion,
    _timestamp := oMerge cloud._timestamp localS._timestamp,
    syncWallets := oMerge cloud.syncWallets localS.syncWallets,
    syncCexApi := oMerge cloud.syncCexApi localS.syncCexApi }

/-- A settings object with no keys (`localData.settings || {}`). -/
def emptySettings : Settings :=
  { openRouterApiKey := none, siliconFlowApiKey := none, etherscanApiKey := none,
    customSolanaRpc := none, isEncrypted := none, encryptionVersion := none,
    _timestamp := none, syncWallets := none, syncCexApi := none }

/-- The `{settings, wallets, cexAccounts}` triple held by one storage area
(`chrome.storage.local` or `chrome.storage.sync`); each key may be
absent. -/
structure StoredData where
  settings : Option Settings
  wallets : Option (List Wallet)
  cexAccounts : Option (List CexAccount)
deriving DecidableEq, Repr

/-- The triple returned by `loadSettingsFromStorage`. -/
structure LoadedData where
  settings : Settings
  wallets : List Wallet
  cexAccounts : List CexAccount
deriving DecidableEq, Repr

/-- The last-write-wins merge phase of `loadSettingsFromStorage`
(`settings_manager.js` lines 65–120, before the decryption steps): start
from local data; when the cloud `_timestamp` is strictly newer, adopt the
spread-merged settings, the cloud wallets when `syncWallets !== false` and
present non-empty, and the cloud CEX accounts only when `syncCexApi ===
true`; when local is newer-or-equal with a non-zero timestamp, keep local;
the remaining "new device" branch (zero local timestamp, positive cloud
timestamp) is unreachable for natural timestamps but modelled faithfully.
`syncData = none` models the `catch` around `chrome.storage.sync.get`. -/
def loadMerge (localData : StoredData) (syncData : Option StoredData) : LoadedData :=
  let settings := localData.settings.getD emptySettings
  let wallets := localData.wallets.getD []
  let cexAccounts := localData.cexAccounts.getD []
  let localTimestamp := settings._timestamp.getD 0
  match syncData with
  | none => { settings := settings, wallets := wallets, cexAccounts := cexAccounts }
  | some sd =>
    let syncSettings := sd.settings.getD emptySettings
    let cloudTimestamp := syncSettings._timestamp.getD 0
    if cloudTimestamp > localTimestamp then
      { settings := mergeSettings settings syncSettings,
        wallets :=
          if syncSettings.syncWallets ≠ some false ∧ sd.wallets.isSome ∧
              (sd.wallets.getD []).length > 0 then sd.wallets.getD []
          else wallets,
        cexAccounts :=
          if syncSettings.syncCexApi = some true ∧ sd.cexAccounts.isSome ∧
              (sd.cexAccounts.getD []).length > 0 then sd.cexAccounts.getD []
          else cexAccounts }
    else if localTimestamp > 0 then
      { settings := settings, wallets := wallets, cexAccounts := cexAccounts }
    else if cloudTimestamp > 0 then
      { settings := mergeSettings settings syncSettings,
        wallets :=
          if sd.wallets.isSome ∧ (sd.wallets.getD []).length > 0 then sd.wallets.getD []
          else wallets,
        cexAccounts := cexAccounts }
    else
      { settings := settings, wallets := wallets, cexAccounts := cexAccounts }

/-! ## Wallet CSV parsing (`settings_manager.js` lines 14–58) -/

/-- `c` is a comma or a tab — the first alternative `[,\t]+` of the
column-splitting regex. -/
def isCommaTab (c : Char) : Bool := c = ',' || c = '\t'

/-- One-character lookahead: the next character is whitespace. -/
def wsAhead : List Char → Bool
  | c :: _ => c.isWhitespace
  | [] => false

/-!
`row.split(/[,\t]+|\s{2,}/)` as a three-state scanner.  At each position
the regex first tries `[,\t]+` (a run of commas/tabs, absorbed by the `CT`
state) and otherwise `\s{2,}` (a run of two or more whitespace characters,
absorbed by the `WS` state); any other character — including a single
space — belongs to the current column.  Adjacent delimiter matches produce
empty tokens, exactly as `String.prototype.split` does.
-/
mutual

/-- The scan outside a delimiter run; `cur` is the current column,
reversed. -/
def jsSplitColsAux : List Char → List Char → List String
  | [], cur => [String.mk cur.reverse]
  | c :: rest, cur =>
    if isCommaTab c then String.mk cur.reverse :: jsSplitColsCT rest
    else if c.isWhitespace && wsAhead rest then String.mk cur.reverse :: jsSplitColsWS rest
    else jsSplitColsAux rest (c :: cur)

/-- Continuation of the scan inside a `[,\t]+` delimiter run. -/
def jsSplitColsCT : List Char → List String
  | [] => [""]
  | c :: rest =>
    if isCommaTab c then jsSplitColsCT rest
    else if c.isWhitespace && wsAhead rest then "" :: jsSplitColsWS rest
    else jsSplitColsAux rest [c]

/-- Continuation of the scan inside a `\s{2,}` delimiter run (greedy:
absorbs every following whitespace character). -/
def jsSplitColsWS : List Char → List String
  | [] => [""]
  | c :: rest =>
    if c.isWhitespace then jsSplitColsWS rest
    else if isCommaTab c then "" :: jsSplitColsCT rest
    else jsSplitColsAux rest [c]

end

/-- The column split of one row. -/
def jsSplitCols (row : String) : List String :=
  jsSplitColsAux row.data []

/-- `parseWalletInput(rawInput)` (`settings_manager.js` lines 14–47):
split the trimmed input into lines; skip blank rows; split each row into
columns (trimmed, empties dropped); skip a first row whose first column is
a header word; rows with at least two columns become pending wallets with
defaulted remark/wallet_type. -/
def parseWalletInput (rawInput : String) : List Wallet :=
  let rows := jsSplitLines (jsTrim rawInput)
  (rows.enum.foldl (fun (wallets : List Wallet) (iRow : Nat × String) =>
    let i := iRow.1
    let row := iRow.2
    if jsTrim row = "" then wallets
    else
      let cols := ((jsSplitCols row).map jsTrim).filter (fun s => s.length > 0)
      let firstCol := jsToLower (cols.headD "")
      if i = 0 ∧ cols.length ≥ 2 ∧
          (firstCol = "address" ∨ firstCol = "地址" ∨ firstCol = "wallet") then wallets
      else if cols.length ≥ 2 then
        wallets ++ [{
          address := cols.headD "",
          chain_type := jsToLower (cols.getD 1 ""),
          remark := cols.getD 2 "",
          wallet_type := match cols.get? 3 with
            | some c => jsToLower c
            | none => "hot",
          balance := 0,
          last_updated := none,
          status := "pending" }]
      else wallets) [])

/-- `walletsToCSV(wallets)` (`settings_manager.js` lines 54–58). -/
def walletsToCSV (wallets : List Wallet) : String :=
  String.intercalate "\n" (wallets.map (fun w =>
    w.address ++ ", " ++ w.chain_type ++ ", " ++ w.remark ++ ", " ++
      (if w.wallet_type = "" then "hot" else w.wallet_type)))

/-- The batch invariant of spec §4.3: a CexAccount array is flag-uniform —
either every element carries `isEncrypted === true` or no element does
(never a mixed array). -/
def uniformEncryption (accounts : List CexAccount) : Prop :=
  (∀ a ∈ accounts, flagTruthy a.isEncrypted = true) ∨
    (∀ a ∈ accounts, flagTruthy a.isEncrypted = false)

/-- The claim's literal phrasing of the invariant: when the first element
of the array is flagged encrypted, every element is. -/
def firstImpliesAll (accounts : List CexAccount) : Prop :=
  headEncrypted accounts = true → ∀ a ∈ accounts, flagTruthy a.isEncrypted = true

instance (l : List CexAccount) : Decidable (uniformEncryption l) := by
  unfold uniformEncryption; infer_instance

instance (l : List CexAccount) : Decidable (firstImpliesAll l) := by
  unfold firstImpliesAll; infer_instance

/-- A sample encrypted CEX account, used to instantiate theorems at a
concrete input. -/
def sampleEncAccount : CexAccount :=
  { id := "1", cexName := "okx", apiKey := some (JStr.plain "key1"),
    apiSecret := some (JStr.cipher (JStr.plain "sec1") "Pw1"),
    passphrase := some (JStr.cipher (JStr.plain "pp1") "Pw1"),
    remark := "Main", isEncrypted := some true }

/-- A sample encrypted settings object, used to instantiate theorems at a
concrete input. -/
def sampleEncSettings : Settings :=
  { openRouterApiKey := some (JStr.cipher (JStr.plain "or-key") "Pw1"),
    siliconFlowApiKey := some (JStr.cipher (JStr.plain "sf-key") "Pw1"),
    etherscanApiKey := some (JStr.plain "ETHERSCAN"), customSolanaRpc := none,
    isEncrypted := some true, encryptionVersion := some "1.0",
    _timestamp := some 100, syncWallets := none, syncCexApi := none }

/-- The wallet record that the claim-C9 input line parses to. -/
def sampleWallet : Wallet :=
  { address := "0xabc", chain_type := "evm", remark := "MyWallet",
    wallet_type := "cold", balance := 0, last_updated := none, status := "pending" }

/-- A sample RPC fetch outcome (every endpoint returns 5 lamports), used
to instantiate theorems at a concrete input. -/
def sampleFetch (_rpc : String) : Except String ℚ := Except.ok 5

/-- A sample event trace for the busy guard: a second `START_UPDATE`
arrives while a cycle runs, the cycle ends, a new one starts. -/
def sampleTrace : List UpdEvent :=
  [UpdEvent.startUpdate, UpdEvent.startUpdate, UpdEvent.cycleEnd, UpdEvent.startUpdate]

/-! ## Theorems -/

/-- `decrypt` of a non-ciphertext string is always `null`. -/
theorem decrypt_plain_eq_none (s password : String) :
    decrypt (some (JStr.plain s)) password = none := by
  unfold decrypt
  by_cases h : (JStr.plain s).isFalsy || password = "" <;> simp [h]

/-- C2: the round-trip `decrypt(encrypt(p, pw), pw) === p` fails for the
empty plaintext (`encrypt` returns `null` on falsy input, and `decrypt`
maps `null` to `null`), so the claim does not hold for *every* pair of
strings. -/
theorem C2_roundtrip_counterexample :
    ¬ decrypt (encrypt (some (JStr.plain "")) "pw1") "pw1" = some (JStr.plain "") := by
  decide

/-- C2 (amended): for every non-empty plaintext and non-empty password,
`decrypt(encrypt(plaintext, password), password)` is the plaintext. -/
theorem C2_roundtrip (plaintext password : String) (hp : plaintext ≠ "")
    (hpw : password ≠ "") :
    decrypt (encrypt (some (JStr.plain plaintext)) password) password
      = some (JStr.plain plaintext) := by
  simp [encrypt, decrypt, JStr.isFalsy, hp, hpw]

/-- Witness for `C2_roundtrip` at a concrete pair. -/
theorem C2_roundtrip_witness :
    decrypt (encrypt (some (JStr.plain "sk-or-v1-key")) "Hunter2!") "Hunter2!"
      = some (JStr.plain "sk-or-v1-key") :=
  C2_roundtrip "sk-or-v1-key" "Hunter2!" (by decide) (by decide)

/-- C3: a ciphertext produced by `encrypt` under password `P` decrypts to
`null` under any password `P2 ≠ P`, and `decrypt` on corrupt /
non-ciphertext input is also `null`; being a total function of the
embedding, `decrypt` never throws. -/
theorem C3_wrong_password_null (data : JStr) (password password2 corrupt : String)
    (c : JStr) (henc : encrypt (some data) password = some c)
    (hne : password2 ≠ password) :
    decrypt (some c) password2 = none ∧
      decrypt (some (JStr.plain corrupt)) password2 = none := by
  refine ⟨?_, decrypt_plain_eq_none corrupt password2⟩
  unfold encrypt at henc
  by_cases hd : data.isFalsy
  · simp [hd] at henc
  · by_cases hpw : password = ""
    · simp [hd, hpw] at henc
    · simp only [Bool.not_eq_true] at hd
      simp [hd, hpw] at henc
      subst henc
      by_cases h2 : password2 = ""
      · simp [decrypt, JStr.isFalsy, h2]
      · simp [decrypt, JStr.isFalsy, h2, Ne.symm hne]

/-- Witness for `C3_wrong_password_null` at a concrete ciphertext. -/
theorem C3_wrong_password_null_witness :
    decrypt (some (JStr.cipher (JStr.plain "apiSecret123") "GoodPw1!")) "BadPw2!" = none ∧
      decrypt (some (JStr.plain "not-a-ciphertext")) "BadPw2!" = none :=
  C3_wrong_password_null (JStr.plain "apiSecret123") "GoodPw1!" "BadPw2!"
    "not-a-ciphertext" (JStr.cipher (JStr.plain "apiSecret123") "GoodPw1!")
    (by decide) (by decide)

/-- C10: on an encrypted `Settings` object or `CexAccount` and any
non-empty password — including a wrong one — `decryptSettings` and
`decryptCexAccount` unconditionally remove the `isEncrypted` marker (and
`encryptionVersion` for settings); when the decryption of a secret field
fails, that field keeps its ciphertext value while the returned object is
nevertheless flagged as plaintext. -/
theorem C10_markers_always_removed (settings : Settings) (account : CexAccount)
    (password : String) (hpw : password ≠ "")
    (hs : settings.isEncrypted = some true) (ha : account.isEncrypted = some true) :
    (decryptSettings settings password).isEncrypted = none ∧
    (decryptSettings settings password).encryptionVersion = none ∧
    (decryptCexAccount account password).isEncrypted = none ∧
    (decrypt settings.openRouterApiKey password = none →
      (decryptSettings settings password).openRouterApiKey = settings.openRouterApiKey) ∧
    (decrypt settings.siliconFlowApiKey password = none →
      (decryptSettings settings password).siliconFlowApiKey = settings.siliconFlowApiKey) ∧
    (decrypt account.apiSecret password = none →
      (decryptCexAccount account password).apiSecret = account.apiSecret) ∧
    (decrypt account.passphrase password = none →
      (decryptCexAccount account password).passphrase = account.passphrase) := by
  have hset : decryptSettings settings password =
      { settings with
        openRouterApiKey := decField settings.openRouterApiKey password
        siliconFlowApiKey := decField settings.siliconFlowApiKey password
        isEncrypted := none
        encryptionVersion := none } := by
    simp [decryptSettings, flagTruthy, hpw, hs]
  have hacc : decryptCexAccount account password =
      { account with
        apiSecret := decField account.apiSecret password
        passphrase := decField account.passphrase password
        isEncrypted := none } := by
    simp [decryptCexAccount, flagTruthy, hpw, ha]
  refine ⟨by simp [hset], by simp [hset], by simp [hacc], ?_, ?_, ?_, ?_⟩ <;>
    intro hfail <;> simp [hset, hacc, decField, hfail]

/-- `encryptCexAccount` with a non-empty password always sets the flag. -/
theorem encryptCexAccount_flag (a : CexAccount) (pw : String) (h : pw ≠ "") :
    flagTruthy (encryptCexAccount a pw).isEncrypted = true := by
  simp [encryptCexAccount, h, flagTruthy]

/-- `decryptCexAccount` with a non-empty password never leaves the flag
set: it either deletes it or the input never had it. -/
theorem decryptCexAccount_flag (a : CexAccount) (pw : String) (h : pw ≠ "") :
    flagTruthy (decryptCexAccount a pw).isEncrypted = false := by
  unfold decryptCexAccount
  by_cases hf : flagTruthy a.isEncrypted
  · have hf2 : a.isEncrypted = some true := by simpa [flagTruthy] using hf
    simp [h, hf2, flagTruthy]
  · simp only [Bool.not_eq_true] at hf
    simp [h, hf]

/-- A truthy master password has a non-empty string inside. -/
theorem mpwTruthy_getD {mpw : Option String} (h : mpwTruthy mpw = true) :
    mpw.getD "" ≠ "" := by
  cases mpw with
  | none => simp [mpwTruthy] at h
  | some p => simpa [mpwTruthy] using h

/-- Flag-uniformity is preserved by `encryptCexAccounts` (established
outright for a non-empty password). -/
theorem uniform_encryptCexAccounts (l : List CexAccount) (pw : String)
    (h : uniformEncryption l) : uniformEncryption (encryptCexAccounts l pw) := by
  by_cases hpw : pw = ""
  · simpa [encryptCexAccounts, hpw] using h
  · left
    intro a ha
    simp only [encryptCexAccounts, if_neg hpw] at ha
    rcases List.mem_map.1 ha with ⟨b, _, rfl⟩
    exact encryptCexAccount_flag b pw hpw

/-- `decryptCexAccounts` with a non-empty password leaves no element
flagged. -/
theorem decryptCexAccounts_all_clear (l : List CexAccount) (pw : String)
    (hpw : pw ≠ "") :
    ∀ a ∈ decryptCexAccounts l pw, flagTruthy a.isEncrypted = false := by
  intro a ha
  simp only [decryptCexAccounts, if_neg hpw] at ha
  rcases List.mem_map.1 ha with ⟨b, _, rfl⟩
  exact decryptCexAccount_flag b pw hpw

/-- Flag-uniformity is preserved by `decryptCexAccounts`. -/
theorem uniform_decryptCexAccounts (l : List CexAccount) (pw : String)
    (h : uniformEncryption l) : uniformEncryption (decryptCexAccounts l pw) := by
  by_cases hpw : pw = ""
  · simpa [decryptCexAccounts, hpw] using h
  · exact Or.inr (decryptCexAccounts_all_clear l pw hpw)

/-- Flag-uniformity is preserved by `saveCexAccounts`. -/
theorem uniform_saveCexAccounts (l : List CexAccount) (mpw : Option String)
    (h : uniformEncryption l) : uniformEncryption (saveCexAccounts l mpw) := by
  unfold saveCexAccounts
  split
  · exact uniform_encryptCexAccounts l _ h
  · exact h

/-- A uniform array whose head is not flagged has no flagged element. -/
theorem uniform_all_clear_of_head (l : List CexAccount)
    (h : uniformEncryption l) (hh : headEncrypted l = false) :
    ∀ a ∈ l, flagTruthy a.isEncrypted = false := by
  cases h with
  | inl hall =>
    cases l with
    | nil => intro a ha; cases ha
    | cons b t =>
      have hb := hall b (List.mem_cons_self b t)
      simp [headEncrypted, hb] at hh
  | inr hall => exact hall

/-- Appending one unflagged account to an all-unflagged array keeps the
array uniform. -/
theorem uniform_append_clear (l : List CexAccount) (a : CexAccount)
    (hl : ∀ b ∈ l, flagTruthy b.isEncrypted = false)
    (ha : flagTruthy a.isEncrypted = false) :
    uniformEncryption (l ++ [a]) := by
  right
  intro b hb
  rcases List.mem_append.1 hb with hbl | hba
  · exact hl b hbl
  · rcases List.mem_singleton.1 hba with rfl
    exact ha

/-- Flag-uniformity is preserved by `addCexAccount`. -/
theorem uniform_addCexAccount (cexName apiKeyRaw apiSecretRaw passphraseRaw remarkRaw : String)
    (stored : List CexAccount) (mpw : Option String) (freshId : String)
    (h : uniformEncryption stored) :
    uniformEncryption
      (addCexAccount cexName apiKeyRaw apiSecretRaw passphraseRaw remarkRaw stored mpw freshId) := by
  simp only [addCexAccount]
  split_ifs with hv1 hv2 hguard hdec
  · exact h
  · exact h
  · exact h
  · have hhead : headEncrypted stored = true := by
      simp only [Bool.and_eq_true] at hdec
      exact hdec.2
    have hmpw : mpwTruthy mpw = true := by
      by_cases hm : mpwTruthy mpw
      · exact hm
      · simp only [Bool.not_eq_true] at hm
        exact absurd (by simp [hhead, hm]) hguard
    exact uniform_saveCexAccounts _ _
      (uniform_append_clear _ _
        (decryptCexAccounts_all_clear stored _ (mpwTruthy_getD hmpw))
        (by simp [flagTruthy]))
  · have hhead : headEncrypted stored = false := by
      cases stored with
      | nil => rfl
      | cons b t =>
        by_cases hb : headEncrypted (b :: t) = true
        · exact absurd (by simp [hb]) hdec
        · simpa using hb
    exact uniform_saveCexAccounts _ _
      (uniform_append_clear _ _
        (uniform_all_clear_of_head stored h hhead)
        (by simp [flagTruthy]))

/-- C1: batch encryption-flag invariant.  Given a flag-uniform CexAccount
array (in particular one satisfying the claimed "first element encrypted
implies all encrypted" property), each of `encryptCexAccounts`,
`decryptCexAccounts`, `saveCexAccounts` and `addCexAccount` produces a
flag-uniform array — never one in which some elements carry `isEncrypted
=== true` and others do not — and every produced array again satisfies
the first-implies-all property. -/
theorem C1_no_mixed_array (accounts stored : List CexAccount) (password : String)
    (mpw : Option String)
    (cexName apiKeyRaw apiSecretRaw passphraseRaw remarkRaw freshId : String)
    (hacc : uniformEncryption accounts) (hstored : uniformEncryption stored) :
    (uniformEncryption (encryptCexAccounts accounts password) ∧
      firstImpliesAll (encryptCexAccounts accounts password)) ∧
    (uniformEncryption (decryptCexAccounts accounts password) ∧
      firstImpliesAll (decryptCexAccounts accounts password)) ∧
    (uniformEncryption (saveCexAccounts accounts mpw) ∧
      firstImpliesAll (saveCexAccounts accounts mpw)) ∧
    (uniformEncryption
        (addCexAccount cexName apiKeyRaw apiSecretRaw passphraseRaw remarkRaw stored mpw freshId) ∧
      firstImpliesAll
        (addCexAccount cexName apiKeyRaw apiSecretRaw passphraseRaw remarkRaw stored mpw freshId)) := by
  have fia : ∀ l : List CexAccount, uniformEncryption l → firstImpliesAll l := by
    intro l hl hhead
    cases hl with
    | inl hall => exact hall
    | inr hall =>
      cases l with
      | nil => intro a ha; cases ha
      | cons b t =>
        have hb := hall b (List.mem_cons_self b t)
        simp [headEncrypted, hb] at hhead
  have h1 := uniform_encryptCexAccounts accounts password hacc
  have h2 := uniform_decryptCexAccounts accounts password hacc
  have h3 := uniform_saveCexAccounts accounts mpw hacc
  have h4 := uniform_addCexAccount cexName apiKeyRaw apiSecretRaw passphraseRaw remarkRaw
    stored mpw freshId hstored
  exact ⟨⟨h1, fia _ h1⟩, ⟨h2, fia _ h2⟩, ⟨h3, fia _ h3⟩, ⟨h4, fia _ h4⟩⟩

/-- Witness for `C1_no_mixed_array` on a concrete encrypted store. -/
theorem C1_no_mixed_array_witness :
    (uniformEncryption (encryptCexAccounts [sampleEncAccount] "Pw1") ∧
      firstImpliesAll (encryptCexAccounts [sampleEncAccount] "Pw1")) ∧
    (uniformEncryption (decryptCexAccounts [sampleEncAccount] "Pw1") ∧
      firstImpliesAll (decryptCexAccounts [sampleEncAccount] "Pw1")) ∧
    (uniformEncryption (saveCexAccounts [sampleEncAccount] (some "Pw1")) ∧
      firstImpliesAll (saveCexAccounts [sampleEncAccount] (some "Pw1"))) ∧
    (uniformEncryption
        (addCexAccount "okx" "key2" "sec2" "pp2" "" [sampleEncAccount] (some "Pw1") "42") ∧
      firstImpliesAll
        (addCexAccount "okx" "key2" "sec2" "pp2" "" [sampleEncAccount] (some "Pw1") "42")) :=
  C1_no_mixed_array [sampleEncAccount] [sampleEncAccount] "Pw1" (some "Pw1")
    "okx" "key2" "sec2" "pp2" "" "42" (by decide) (by decide)

/-- C4: `validateSession` returns true immediately after a successful
`createSession(correctPassword)`; at any time strictly past the stored
expiry it returns false and actively clears the session storage; and
after `clearSession()` it returns false. -/
theorem C4_session_lifecycle (password token : String) (passwordHash : Option String)
    (now t : Nat) (store other : SessionStore)
    (hcreate : createSession password passwordHash now token = Except.ok store)
    (htok : token ≠ "") (hexp : t > now + SESSION_DURATION) :
    validateSession store now = (true, store) ∧
    validateSession store t = (false, clearSession store) ∧
    (validateSession (clearSession other) t).1 = false := by
  unfold createSession at hcreate
  by_cases h1 : jsStrFalsy passwordHash
  · simp [h1] at hcreate
  · by_cases h2 : passwordHash ≠ some (hashPassword password)
    · simp [h1, h2] at hcreate
    · simp [h1, h2] at hcreate
      subst hcreate
      have h0 : ¬ now + SESSION_DURATION = 0 := by simp [SESSION_DURATION]
      have hngt : ¬ now > now + SESSION_DURATION := by omega
      refine ⟨?_, ?_, ?_⟩
      · simp [validateSession, jsStrFalsy, jsNatFalsy, htok, h0, hngt]
      · simp [validateSession, jsStrFalsy, jsNatFalsy, htok, h0, hexp]
      · simp [validateSession, clearSession, jsStrFalsy]

/-- Witness for `C4_session_lifecycle` at a concrete session. -/
theorem C4_session_lifecycle_witness :
    validateSession
        { sessionToken := some "tok", sessionExpiry := some (1000 + SESSION_DURATION),
          masterPassword := some "Secret1!" } 1000
      = (true, { sessionToken := some "tok", sessionExpiry := some (1000 + SESSION_DURATION),
                 masterPassword := some "Secret1!" }) ∧
    validateSession
        { sessionToken := some "tok", sessionExpiry := some (1000 + SESSION_DURATION),
          masterPassword := some "Secret1!" } 1801001
      = (false, clearSession
          { sessionToken := some "tok", sessionExpiry := some (1000 + SESSION_DURATION),
            masterPassword := some "Secret1!" }) ∧
    (validateSession
        (clearSession { sessionToken := none, sessionExpiry := none, masterPassword := none })
        1801001).1 = false :=
  C4_session_lifecycle "Secret1!" "tok" (some (hashPassword "Secret1!")) 1000 1801001
    { sessionToken := some "tok", sessionExpiry := some (1000 + SESSION_DURATION),
      masterPassword := some "Secret1!" }
    { sessionToken := none, sessionExpiry := none, masterPassword := none }
    (by rfl) (by decide) (by decide)

/-- Witness for `C10_markers_always_removed` with a wrong password: the
fields stay ciphertext, the markers are gone anyway. -/
theorem C10_markers_always_removed_witness :
    (decryptSettings sampleEncSettings "WrongPw").isEncrypted = none ∧
    (decryptSettings sampleEncSettings "WrongPw").encryptionVersion = none ∧
    (decryptCexAccount sampleEncAccount "WrongPw").isEncrypted = none ∧
    (decrypt sampleEncSettings.openRouterApiKey "WrongPw" = none →
      (decryptSettings sampleEncSettings "WrongPw").openRouterApiKey
        = sampleEncSettings.openRouterApiKey) ∧
    (decrypt sampleEncSettings.siliconFlowApiKey "WrongPw" = none →
      (decryptSettings sampleEncSettings "WrongPw").siliconFlowApiKey
        = sampleEncSettings.siliconFlowApiKey) ∧
    (decrypt sampleEncAccount.apiSecret "WrongPw" = none →
      (decryptCexAccount sampleEncAccount "WrongPw").apiSecret
        = sampleEncAccount.apiSecret) ∧
    (decrypt sampleEncAccount.passphrase "WrongPw" = none →
      (decryptCexAccount sampleEncAccount "WrongPw").passphrase
        = sampleEncAccount.passphrase) :=
  C10_markers_always_removed sampleEncSettings sampleEncAccount "WrongPw"
    (by decide) (by rfl) (by rfl)

/-- The trading-category loop of the OKX adapter overwrites its
accumulator, keeping the last listed account's `totalEq`. -/
theorem okx_trading_foldl (l : List OkxTradingAccount) (init : ℚ) :
    l.foldl (fun _ account => account.totalEq.getD 0) init
      = ((l.getLast?).map (fun a => a.totalEq.getD 0)).getD init := by
  induction l generalizing init with
  | nil => rfl
  | cons a t ih =>
    cases t with
    | nil => rfl
    | cons b u =>
      rw [List.foldl_cons, ih]
      rfl

/-- The funding-category loop accumulates the per-asset USD values. -/
theorem okx_funding_foldl (price : String → ℚ) (l : List OkxFundingAsset) (init : ℚ) :
    l.foldl (fun acc asset =>
        let bal := asset.bal.getD 0
        if bal > 0 then
          if isStableCcy asset.ccy then acc + bal
          else acc + bal * price asset.ccy
        else acc) init
      = init + (l.map (fun a => okxAssetUSD price a.ccy (a.bal.getD 0))).sum := by
  induction l generalizing init with
  | nil => simp
  | cons a t ih =>
    rw [List.foldl_cons, ih]
    simp only [List.map_cons, List.sum_cons]
    unfold okxAssetUSD
    by_cases h1 : a.bal.getD 0 > 0
    · by_cases h2 : isStableCcy a.ccy <;> simp [h1, h2] <;> ring
    · simp [h1]

/-- The savings-category loop accumulates the per-position USD values. -/
theorem okx_savings_foldl (price : String → ℚ) (l : List OkxSavingsPosition) (init : ℚ) :
    l.foldl (fun acc pos =>
        let amt := pos.amt.getD 0
        if amt > 0 then
          if isStableCcy pos.ccy then acc + amt
          else acc + amt * price pos.ccy
        else acc) init
      = init + (l.map (fun p => okxAssetUSD price p.ccy (p.amt.getD 0))).sum := by
  induction l generalizing init with
  | nil => simp
  | cons a t ih =>
    rw [List.foldl_cons, ih]
    simp only [List.map_cons, List.sum_cons]
    unfold okxAssetUSD
    by_cases h1 : a.amt.getD 0 > 0
    · by_cases h2 : isStableCcy a.ccy <;> simp [h1, h2] <;> ring
    · simp [h1]

/-- C5: OKX partial-failure tolerance.  `getOkxBalance` always returns a
`'success'` result (no sub-account failure aborts the call), and the
returned balance is the sum of the USD values of exactly the succeeding
sub-account categories — a category whose request failed contributes 0. -/
theorem C5_okx_partial_failure
    (tradingResult : Except String (OkxResp OkxTradingAccount))
    (fundingResult : Except String (OkxResp OkxFundingAsset))
    (savingsResult : Except String (OkxResp OkxSavingsPosition))
    (price : String → ℚ) :
    (getOkxBalance tradingResult fundingResult savingsResult price).status = "success" ∧
    (getOkxBalance tradingResult fundingResult savingsResult price).balance =
      (match tradingResult with
        | Except.error _ => 0
        | Except.ok r => okxTradingUSD r) +
      (match fundingResult with
        | Except.error _ => 0
        | Except.ok r => okxFundingUSD price r) +
      (match savingsResult with
        | Except.error _ => 0
        | Except.ok r => okxSavingsUSD price r) := by
  constructor
  · cases tradingResult <;> cases fundingResult <;> cases savingsResult <;> rfl
  · have ht : ∀ r : OkxResp OkxTradingAccount,
        (if r.code = "0" then r.data.foldl (fun _ account => account.totalEq.getD 0) 0 else 0)
          = okxTradingUSD r := by
      intro r
      unfold okxTradingUSD
      by_cases hc : r.code = "0" <;> simp [hc, okx_trading_foldl]
    have hf : ∀ r : OkxResp OkxFundingAsset,
        (if r.code = "0" then
            r.data.foldl (fun acc asset =>
              let bal := asset.bal.getD 0
              if bal > 0 then
                if isStableCcy asset.ccy then acc + bal
                else acc + bal * price asset.ccy
              else acc) 0
          else 0) = okxFundingUSD price r := by
      intro r
      unfold okxFundingUSD
      by_cases hc : r.code = "0" <;> simp [hc, okx_funding_foldl]
    have hs : ∀ r : OkxResp OkxSavingsPosition,
        (if r.code = "0" then
            r.data.foldl (fun acc pos =>
              let amt := pos.amt.getD 0
              if amt > 0 then
                if isStableCcy pos.ccy then acc + amt
                else acc + amt * price pos.ccy
              else acc) 0
          else 0) = okxSavingsUSD price r := by
      intro r
      unfold okxSavingsUSD
      by_cases hc : r.code = "0" <;> simp [hc, okx_savings_foldl]
    cases tradingResult with
    | error e => cases fundingResult with
      | error e2 => cases savingsResult with
        | error e3 => simp [getOkxBalance]
        | ok r3 => simpa [getOkxBalance] using hs r3
      | ok r2 => cases savingsResult with
        | error e3 => simpa [getOkxBalance] using hf r2
        | ok r3 => simp [getOkxBalance, ← hf r2, ← hs r3]
    | ok r1 => cases fundingResult with
      | error e2 => cases savingsResult with
        | error e3 => simpa [getOkxBalance] using ht r1
        | ok r3 => simp [getOkxBalance, ← ht r1, ← hs r3]
      | ok r2 => cases savingsResult with
        | error e3 => simp [getOkxBalance, ← ht r1, ← hf r2]
        | ok r3 => simp [getOkxBalance, ← ht r1, ← hf r2, ← hs r3]

/-- C6: contrary to the claim, the attempted RPC-endpoint list is NOT
non-empty when no custom RPC is configured: the built-in `SOLANA_RPCS`
list is empty, so `getSolanaBalance` attempts nothing and throws even
though no endpoint failed (there are no "default endpoints"). -/
theorem C6_solana_counterexample :
    solanaRpcsToTry none = [] ∧
      getSolanaBalance none (fun _ => Except.ok 100) 1
        = Except.error "All Solana RPCs failed" :=
  ⟨rfl, rfl⟩

/-- C6 (amended): the attempted endpoint list is the user-configured
custom RPC followed by the built-in list, which is empty — exactly the
custom RPC when one is configured, and nothing otherwise; the endpoint
loop returns the first success, moves on when an endpoint fails, and the
call throws iff every endpoint in the (possibly empty) list failed — in
particular immediately, with the generic message, when no custom RPC is
configured. -/
theorem C6_solana_fallback (customRpc : String) (fetch : String → Except String ℚ)
    (price lamports : ℚ) (e : String) (hc : customRpc ≠ "") :
    solanaRpcsToTry (some customRpc) = [customRpc] ∧
    (fetch customRpc = Except.ok lamports →
      getSolanaBalance (some customRpc) fetch price
        = Except.ok (lamports / 1000000000 * price)) ∧
    (fetch customRpc = Except.error e →
      getSolanaBalance (some customRpc) fetch price = Except.error e) ∧
    getSolanaBalance none fetch price = Except.error "All Solana RPCs failed" := by
  have hl : solanaRpcsToTry (some customRpc) = [customRpc] := by
    simp [solanaRpcsToTry, SOLANA_RPCS, hc]
  refine ⟨hl, ?_, ?_, rfl⟩
  · intro hok
    unfold getSolanaBalance
    rw [hl]
    unfold trySolanaRpcs
    rw [hok]
  · intro herr
    unfold getSolanaBalance
    rw [hl]
    unfold trySolanaRpcs
    rw [herr]
    rfl

/-- Witness for `C6_solana_fallback` at a concrete custom RPC and
outcomes. -/
theorem C6_solana_fallback_witness :
    solanaRpcsToTry (some "https://rpc.example") = ["https://rpc.example"] ∧
    (sampleFetch "https://rpc.example" = Except.ok (5 : ℚ) →
      getSolanaBalance (some "https://rpc.example") sampleFetch 2
        = Except.ok ((5 : ℚ) / 1000000000 * 2)) ∧
    (sampleFetch "https://rpc.example" = Except.error "boom" →
      getSolanaBalance (some "https://rpc.example") sampleFetch 2
        = Except.error "boom") ∧
    getSolanaBalance none sampleFetch 2
      = Except.error "All Solana RPCs failed" :=
  C6_solana_fallback "https://rpc.example" sampleFetch 2 5 "boom" (by decide)

/-- Along a valid event trace the ghost count of in-flight cycles always
matches the `isUpdating` flag. -/
theorem orch_inv (es : List UpdEvent) : ∀ s : OrchState,
    s.running = (if s.isUpdating then 1 else 0) → validTrace s es = true →
    (orchRun s es).running = (if (orchRun s es).isUpdating then 1 else 0) := by
  induction es with
  | nil => intro s hinv _; exact hinv
  | cons e t ih =>
    intro s hinv hv
    simp only [validTrace, Bool.and_eq_true] at hv
    rcases hv with ⟨he, hv⟩
    have hstep : (orchStep s e).running = (if (orchStep s e).isUpdating then 1 else 0) := by
      cases e with
      | startUpdate =>
        by_cases hb : s.isUpdating
        · simpa [orchStep, handleStartUpdate, hb] using hinv
        · simp only [Bool.not_eq_true] at hb
          simp [orchStep, handleStartUpdate, hb] at hinv ⊢
          omega
      | cycleEnd =>
        have hr : 0 < s.running := by simpa using he
        by_cases hb : s.isUpdating
        · simp [hb] at hinv
          simp [orchStep, cycleTerminate, hinv]
        · simp only [Bool.not_eq_true] at hb
          simp [hb] at hinv
          exact absurd hr (by simp [hinv])
    exact ih (orchStep s e) hstep hv

/-- C7: the `START_UPDATE` busy guard.  After any valid event sequence at
most one update cycle is in flight; a `START_UPDATE` received while a
cycle runs is answered `busy` and changes nothing (no second cycle
starts); a `START_UPDATE` received while idle is answered `ok` and starts
exactly one cycle; and a cycle's termination — the `finally` block,
reached on normal completion and on exception alike — resets the
`isUpdating` flag. -/
theorem C7_busy_guard (es : List UpdEvent)
    (hv : validTrace initOrchState es = true) :
    (orchRun initOrchState es).running ≤ 1 ∧
    ((orchRun initOrchState es).isUpdating = true →
      handleStartUpdate (orchRun initOrchState es)
        = (orchRun initOrchState es, StartResponse.busy)) ∧
    ((orchRun initOrchState es).isUpdating = false →
      (handleStartUpdate (orchRun initOrchState es)).2 = StartResponse.ok ∧
      (handleStartUpdate (orchRun initOrchState es)).1.running
        = (orchRun initOrchState es).running + 1 ∧
      (handleStartUpdate (orchRun initOrchState es)).1.isUpdating = true) ∧
    (cycleTerminate (orchRun initOrchState es)).isUpdating = false := by
  have hinv := orch_inv es initOrchState (by rfl) hv
  refine ⟨?_, ?_, ?_, rfl⟩
  · rw [hinv]
    split <;> omega
  · intro hb
    simp [handleStartUpdate, hb]
  · intro hb
    simp [handleStartUpdate, hb]

/-- Witness for `C7_busy_guard` on a concrete trace (start, start while
busy, cycle end, start again). -/
theorem C7_busy_guard_witness :
    (orchRun initOrchState sampleTrace).running ≤ 1 ∧
    ((orchRun initOrchState sampleTrace).isUpdating = true →
      handleStartUpdate (orchRun initOrchState sampleTrace)
        = (orchRun initOrchState sampleTrace, StartResponse.busy)) ∧
    ((orchRun initOrchState sampleTrace).isUpdating = false →
      (handleStartUpdate (orchRun initOrchState sampleTrace)).2 = StartResponse.ok ∧
      (handleStartUpdate (orchRun initOrchState sampleTrace)).1.running
        = (orchRun initOrchState sampleTrace).running + 1 ∧
      (handleStartUpdate (orchRun initOrchState sampleTrace)).1.isUpdating = true) ∧
    (cycleTerminate (orchRun initOrchState sampleTrace)).isUpdating = false :=
  C7_busy_guard sampleTrace (by decide)

/-- C8: last-write-wins merge of `loadSettingsFromStorage`.  When the
cloud `_timestamp` is strictly greater, the load path adopts the
cloud-over-local spread-merged settings, and the cloud wallets whenever
`syncWallets !== false` and cloud wallets are present and non-empty; when
the local `_timestamp` is greater than or equal to the cloud one and
non-zero, the local settings, wallets and CEX accounts are all retained
unchanged. -/
theorem C8_last_write_wins (localData sd : StoredData) :
    (((sd.settings.getD emptySettings)._timestamp.getD 0
        > (localData.settings.getD emptySettings)._timestamp.getD 0) →
      (loadMerge localData (some sd)).settings
        = mergeSettings (localData.settings.getD emptySettings)
            (sd.settings.getD emptySettings) ∧
      (((sd.settings.getD emptySettings).syncWallets ≠ some false ∧ sd.wallets.isSome ∧
          (sd.wallets.getD []).length > 0) →
        (loadMerge localData (some sd)).wallets = sd.wallets.getD [])) ∧
    ((((localData.settings.getD emptySettings)._timestamp.getD 0
        ≥ (sd.settings.getD emptySettings)._timestamp.getD 0) ∧
      (localData.settings.getD emptySettings)._timestamp.getD 0 > 0) →
      loadMerge localData (some sd)
        = { settings := localData.settings.getD emptySettings,
            wallets := localData.wallets.getD [],
            cexAccounts := localData.cexAccounts.getD [] }) := by
  constructor
  · intro hgt
    constructor
    · simp only [loadMerge]
      rw [if_pos hgt]
    · intro hw
      simp only [loadMerge]
      rw [if_pos hgt]
      simp only []
      rw [if_pos hw]
  · rintro ⟨hge, hpos⟩
    have hngt : ¬ ((sd.settings.getD emptySettings)._timestamp.getD 0
        > (localData.settings.getD emptySettings)._timestamp.getD 0) := by omega
    simp only [loadMerge]
    rw [if_neg hngt, if_pos hpos]

/-- C9: the wallet-CSV round trip at the claim's concrete line: parsing
`"0xabc, evm, MyWallet, cold"` yields exactly the record with address
`0xabc`, chain_type `evm`, remark `MyWallet`, wallet_type `cold`, balance
0 and status `pending`; serializing that record produces the same
comma-joined line, which parses back to the same record. -/
theorem C9_wallet_csv_roundtrip :
    parseWalletInput "0xabc, evm, MyWallet, cold" = [sampleWallet] ∧
    walletsToCSV [sampleWallet] = "0xabc, evm, MyWallet, cold" ∧
    parseWalletInput (walletsToCSV [sampleWallet]) = [sampleWallet] := by
  refine ⟨?_, ?_, ?_⟩ <;> decide

end SmartFolio
